import Mathlib

/-!
Verification of the request-lifecycle and admin-authorization subsystem of a
conversational finance bot.  The Python source (SQLAlchemy models, aiogram
handlers) is shallowly embedded: database tables become lists of rows, the
aiogram FSM context becomes an explicit `Ctx` value, each handler becomes a
pure function from inputs and state to an outcome plus the updated state.
Row identifiers are `Int` (SQL INTEGER), decimal amounts are `Rat`
(`decimal.Decimal` is exact decimal arithmetic, a subset of the rationals).
-/

/-! ## Data model (src/models.py) -/

/-- `models.RequestStatus`. -/
inductive ReqStatus
  | pending
  | approved
  | rejected
deriving DecidableEq, Repr

/-- `models.ComplaintStatus`. -/
inductive CompStatus
  | pending
  | resolved
deriving DecidableEq, Repr

/-- `models.RequestType`. -/
inductive ReqType
  | deposit
  | withdraw
deriving DecidableEq, Repr

/-- `models.User` (the columns the core logic reads/writes).
`isTemporaryAdmin` is the `is_temporary_admin` attribute written by
`handlers/admin.py`; the declarative model omits the column, but the handler
code treats it as a per-user flag, so it is embedded as one. -/
structure UserRow where
  id : Int
  telegramId : Int
  language : String
  currency : String
  isRegistered : Bool
  isAdmin : Bool
  isTemporaryAdmin : Bool
deriving DecidableEq, Repr

/-- `models.Role`: a name plus a JSON list of permission strings. -/
structure RoleRow where
  id : Int
  name : String
  permissions : List String
deriving DecidableEq, Repr

/-- `models.AdminRole`: the User × Role join table. -/
structure AdminRoleRow where
  userId : Int
  roleId : Int
deriving DecidableEq, Repr

/-- `models.Company` (columns used by the finance flow). -/
structure CompanyRow where
  id : Int
  nameAr : String
  nameEn : String
  isActive : Bool
deriving DecidableEq, Repr

/-- `models.PaymentMethod` (columns used by the finance flow). -/
structure PaymentMethodRow where
  id : Int
  companyId : Int
  nameAr : String
  nameEn : String
  isActive : Bool
deriving DecidableEq, Repr

/-- `models.Request`. -/
structure RequestRow where
  id : Int
  userId : Int
  companyId : Int
  paymentMethodId : Int
  requestType : ReqType
  amount : Rat
  currency : String
  reference : Option String
  userWithdrawTo : Option String
  status : ReqStatus
  adminNotes : Option String
  approvedBy : Option Int
  clientToken : Option String
deriving DecidableEq, Repr

/-- `models.Complaint`. -/
structure ComplaintRow where
  id : Int
  userId : Int
  text : String
  status : CompStatus
  adminReply : Option String
  resolvedBy : Option Int
deriving DecidableEq, Repr

/-- `models.AuditLog`: `before`/`after` JSON snapshots are embedded as
field-name/value association lists. -/
structure AuditRow where
  actorUserId : Int
  action : String
  entity : String
  entityId : Option Int
  before : Option (List (String × String))
  after : Option (List (String × String))
deriving DecidableEq, Repr

/-- The relational store: one list of rows per table. -/
structure DB where
  users : List UserRow
  roles : List RoleRow
  adminRoles : List AdminRoleRow
  companies : List CompanyRow
  paymentMethods : List PaymentMethodRow
  requests : List RequestRow
  complaints : List ComplaintRow
  auditLogs : List AuditRow
deriving DecidableEq, Repr

/-- `select(User).where(User.telegram_id == tid)` + `scalar_one_or_none()`
(`telegram_id` is unique, so first match is the row). -/
def findUser (db : DB) (tid : Int) : Option UserRow :=
  db.users.find? (fun u => u.telegramId == tid)

/-! ## Permission model (src/utils/auth.py) -/

def MANAGE_USERS : String := "ManageUsers"
def MANAGE_PAYMENTS : String := "ManagePayments"
def APPROVE_TX : String := "ApproveTx"
def REPORTS : String := "Reports"
def BROADCAST : String := "Broadcast"
def SETTINGS : String := "Settings"
def MANAGE_ADMINS : String := "ManageAdmins"

/-- `auth.Permissions.ALL_PERMISSIONS`. -/
def ALL_PERMISSIONS : List String :=
  [MANAGE_USERS, MANAGE_PAYMENTS, APPROVE_TX, REPORTS, BROADCAST, SETTINGS, MANAGE_ADMINS]

/-- `auth.is_super_admin`: membership in the static `ADMINS` allowlist
(config-supplied list of telegram ids, a parameter of the model). -/
def is_super_admin (admins : List Int) (tid : Int) : Bool :=
  admins.contains tid

/-- `set.update` / `list(set)` accumulation in `get_user_permissions`:
insert each permission not already present (first-occurrence order stands in
for Python's unordered set; all claims are membership/equality-of-set facts). -/
def addPerms (acc : List String) (ps : List String) : List String :=
  ps.foldl (fun a p => if a.contains p then a else a ++ [p]) acc

/-- The roles joined to a user via `AdminRole` rows:
`select(Role).join(AdminRole).where(AdminRole.user_id == user.id)`. -/
def rolesOfUser (db : DB) (uid : Int) : List RoleRow :=
  db.roles.filter (fun r => db.adminRoles.any (fun ar => ar.userId == uid && ar.roleId == r.id))

/-- `auth.get_user_permissions`: super-admins get `ALL_PERMISSIONS`;
otherwise a missing or non-admin user gets `[]`; otherwise the union of the
permission lists of every role reachable via the user's AdminRole rows. -/
def get_user_permissions (admins : List Int) (db : DB) (tid : Int) : List String :=
  if is_super_admin admins tid then ALL_PERMISSIONS
  else
    match findUser db tid with
    | none => []
    | some u =>
      if !u.isAdmin then []
      else (rolesOfUser db u.id).foldl (fun acc r => addPerms acc r.permissions) []

/-- `auth.has_permission`: membership in `get_user_permissions`. -/
def has_permission (admins : List Int) (db : DB) (tid : Int) (p : String) : Bool :=
  (get_user_permissions admins db tid).contains p

/-- `auth.is_guest_mode`: no user row, or the row is not registered. -/
def is_guest_mode (db : DB) (tid : Int) : Bool :=
  match findUser db tid with
  | none => true
  | some u => !u.isRegistered

/-- `auth.create_audit_log`.  The function opens its own `try`: it resolves
the actor row (warning + no row when absent), adds the `AuditLog` row and
`commit`s; on any failure it `rollback`s the audit insert and swallows the
exception.  `auditOk` models whether that separate commit succeeds; on
failure the store is returned unchanged (only the audit insert is rolled
back - any previously committed business row stays). -/
def create_audit_log (auditOk : Bool) (db : DB) (actorTid : Int) (action entity : String)
    (entityId : Option Int) (beforeSnap afterSnap : Option (List (String × String))) : DB :=
  match findUser db actorTid with
  | none => db
  | some actor =>
    if auditOk then
      { db with auditLogs := db.auditLogs ++
          [{ actorUserId := actor.id, action := action, entity := entity,
             entityId := entityId, before := beforeSnap, after := afterSnap }] }
    else db

/-- `auth.ensure_default_roles`: if any Role row exists, no-op; otherwise
seed the five default roles (autoincrement ids 1..5).  The "Super Admin"
role's permission list is `ALL_PERMISSIONS`, which includes ManageAdmins. -/
def ensure_default_roles (db : DB) : DB :=
  if db.roles.isEmpty then
    { db with roles :=
        [ { id := 1, name := "Super Admin", permissions := ALL_PERMISSIONS },
          { id := 2, name := "Finance Manager",
            permissions := [MANAGE_PAYMENTS, APPROVE_TX, REPORTS] },
          { id := 3, name := "User Manager", permissions := [MANAGE_USERS, REPORTS] },
          { id := 4, name := "Support Agent", permissions := [MANAGE_USERS, BROADCAST] },
          { id := 5, name := "Viewer", permissions := [REPORTS] } ] }
  else db

/-! ## Conversation context (aiogram FSMContext, utils/states.py) -/

/-- The FSM states the embedded handlers set (from `utils/states.py`). -/
inductive FlowState
  | depositWaitingCompany
  | depositWaitingPaymentMethod
  | depositWaitingAmount
  | depositWaitingReference
  | depositWaitingConfirmation
  | withdrawWaitingCompany
  | withdrawWaitingPaymentMethod
  | withdrawWaitingAmount
  | withdrawWaitingAddress
  | withdrawWaitingConfirmation
  | complaintWaitingText
deriving DecidableEq, Repr

/-- The FSM data dict (`state.update_data` keys used by the finance flow).
`amount` is stored by the source as `str(Decimal)` and re-parsed at commit;
that round trip is value-preserving, so it is embedded as the value. -/
structure StateData where
  requestType : Option String
  companyId : Option Int
  companyName : Option String
  paymentMethodId : Option Int
  paymentMethodName : Option String
  amount : Option Rat
  currency : Option String
  reference : Option String
  userWithdrawTo : Option String
deriving DecidableEq, Repr

def emptyData : StateData :=
  { requestType := none, companyId := none, companyName := none,
    paymentMethodId := none, paymentMethodName := none, amount := none,
    currency := none, reference := none, userWithdrawTo := none }

/-- Per-conversation context: current FSM state plus the data dict
(`state.set_state` / `state.update_data` act on these independently;
`state.clear()` resets both). -/
structure Ctx where
  st : Option FlowState
  data : StateData
deriving DecidableEq, Repr

def clearCtx : Ctx := { st := none, data := emptyData }

/-! ## Flow entry handlers (src/handlers/finance.py, complaints.py) -/

/-- Outcome of a flow-entry handler (which reply the user sees). -/
inductive StartOutcome
  | guestOffer      -- `guest_restriction` + register button
  | pleaseStart     -- no user row (unreachable after the guest gate; kept from source)
  | noCompanies
  | started
deriving DecidableEq, Repr

/-- `finance.deposit_handler`: guest gate first, then user lookup, then the
active-company list; only on success is the FSM state set and
`request_type="deposit"` merged into the data dict.  The store is returned
to make "nothing persisted" explicit: no branch writes it. -/
def deposit_handler (db : DB) (tid : Int) (ctx : Ctx) : StartOutcome × Ctx × DB :=
  if is_guest_mode db tid then (.guestOffer, ctx, db)
  else
    match findUser db tid with
    | none => (.pleaseStart, ctx, db)
    | some _ =>
      if (db.companies.filter (fun c => c.isActive)).isEmpty then (.noCompanies, ctx, db)
      else (.started,
            { st := some .depositWaitingCompany,
              data := { ctx.data with requestType := some "deposit" } }, db)

/-- `finance.withdraw_handler`: identical shape with the withdraw state. -/
def withdraw_handler (db : DB) (tid : Int) (ctx : Ctx) : StartOutcome × Ctx × DB :=
  if is_guest_mode db tid then (.guestOffer, ctx, db)
  else
    match findUser db tid with
    | none => (.pleaseStart, ctx, db)
    | some _ =>
      if (db.companies.filter (fun c => c.isActive)).isEmpty then (.noCompanies, ctx, db)
      else (.started,
            { st := some .withdrawWaitingCompany,
              data := { ctx.data with requestType := some "withdraw" } }, db)

/-- `complaints.complaint_start_handler`: guest gate, user lookup, then the
complaint text state is set (no data update). -/
def complaint_start_handler (db : DB) (tid : Int) (ctx : Ctx) : StartOutcome × Ctx × DB :=
  if is_guest_mode db tid then (.guestOffer, ctx, db)
  else
    match findUser db tid with
    | none => (.pleaseStart, ctx, db)
    | some _ => (.started, { st := some .complaintWaitingText, data := ctx.data }, db)

/-! ## Payment-method selection (src/handlers/finance.py lines 205-259) -/

/-- Outcome of `payment_method_selection_handler`. -/
inductive PMOutcome
  | errorNoUser
  | errorNotFound   -- id resolves to no PaymentMethod row
  | accepted
deriving DecidableEq, Repr

/-- `finance.payment_method_selection_handler`: after resolving the caller,
the method is looked up by id alone - `select(PaymentMethod).where(
PaymentMethod.id == payment_method_id)` - with no `is_active` filter and no
comparison against the draft's `company_id`; any existing row is recorded
into the data dict and the flow advances to the amount step. -/
def payment_method_selection_handler (db : DB) (tid : Int) (pmId : Int) (ctx : Ctx) :
    PMOutcome × Ctx :=
  match findUser db tid with
  | none => (.errorNoUser, ctx)
  | some u =>
    match db.paymentMethods.find? (fun m => m.id == pmId) with
    | none => (.errorNotFound, ctx)
    | some m =>
      let d := { ctx.data with
                   paymentMethodId := some pmId,
                   paymentMethodName := some (if u.language == "ar" then m.nameAr else m.nameEn) }
      if ctx.data.requestType.getD "deposit" == "deposit" then
        (.accepted, { st := some .depositWaitingAmount, data := d })
      else
        (.accepted, { st := some .withdrawWaitingAmount, data := d })

/-! ## Decimal parsing (decimal.Decimal on str input) and the amount step -/

/-- Value of an ASCII digit list, most significant first. -/
def digitsVal (cs : List Char) : Nat :=
  cs.foldl (fun a c => a * 10 + (c.toNat - 48)) 0

/-- Split a mantissa at its decimal point; `none` when more than one point. -/
def splitDot (cs : List Char) : Option (List Char × List Char) :=
  match cs.span (fun c => c != '.') with
  | (ip, []) => some (ip, [])
  | (ip, _ :: rest) => if rest.contains '.' then none else some (ip, rest)

/-- `digits [. digits] | . digits`: at least one digit overall; returns the
digit value together with the fractional length (the scale). -/
def parseMantissa (cs : List Char) : Option (Nat × Nat) :=
  match splitDot cs with
  | none => none
  | some (ip, fp) =>
    if (ip ++ fp).isEmpty then none
    else if (ip ++ fp).all Char.isDigit then some (digitsVal (ip ++ fp), fp.length)
    else none

/-- `[sign] digits` after the exponent indicator. -/
def parseExpDigits (cs : List Char) : Option Int :=
  let p : Bool × List Char :=
    match cs with
    | '+' :: r => (false, r)
    | '-' :: r => (true, r)
    | r => (false, r)
  if p.2.isEmpty then none
  else if p.2.all Char.isDigit then
    some (if p.1 then -(digitsVal p.2 : Int) else (digitsVal p.2 : Int))
  else none

/-- Split at the first `e`/`E` exponent indicator. -/
def splitExpChar (cs : List Char) : List Char × Option (List Char) :=
  match cs.span (fun c => c != 'e' && c != 'E') with
  | (m, []) => (m, none)
  | (m, _ :: rest) => (m, some rest)

/-- Result of `decimal.Decimal` string conversion. -/
inductive PyDec
  | fin (q : Rat)
  | infinite (neg : Bool)
  | nan
deriving DecidableEq, Repr

/-- Finite numeric string `mantissa [(e|E) exponent]` as an exact rational:
value = signed digit value · 10 ^ (exponent - scale), built with `Rat.divInt`
over integer powers of ten. -/
def parseFinite (neg : Bool) (cs : List Char) : Option PyDec :=
  let se := splitExpChar cs
  match parseMantissa se.1 with
  | none => none
  | some vs =>
    let eo : Option Int :=
      match se.2 with
      | none => some 0
      | some ecs => parseExpDigits ecs
    match eo with
    | none => none
    | some e =>
      let sn : Int := if neg then -(vs.1 : Int) else (vs.1 : Int)
      let k : Int := e - (vs.2 : Int)
      let q : Rat :=
        if 0 ≤ k then Rat.divInt (sn * (10 : Int) ^ k.toNat) 1
        else Rat.divInt sn ((10 : Int) ^ (-k).toNat)
      some (.fin q)

def lowerList (cs : List Char) : List Char := cs.map Char.toLower

/-- Case-insensitive `NaN [digits]` / `sNaN [digits]`. -/
def isNanLit (ls : List Char) : Bool :=
  match ls with
  | 'n' :: 'a' :: 'n' :: rest => rest.all Char.isDigit
  | 's' :: 'n' :: 'a' :: 'n' :: rest => rest.all Char.isDigit
  | _ => false

/-- Case-insensitive `Inf` / `Infinity`. -/
def isInfLit (ls : List Char) : Bool :=
  ls == ['i', 'n', 'f'] || ls == ['i', 'n', 'f', 'i', 'n', 'i', 't', 'y']

/-- Start codepoints of the 66 contiguous 0-9 digit runs of Unicode's Nd
category (Unicode 14.0, the database of the CPython runtime): every decimal
digit character lies in [s, s+9] for exactly one run start s and denotes the
digit value codepoint - s.  ASCII 0-9 is the run starting at 48. -/
def ndRangeStarts : List Nat :=
  [48, 1632, 1776, 1984, 2406, 2534, 2662, 2790, 2918, 3046, 3174, 3302, 3430,
   3558, 3664, 3792, 3872, 4160, 4240, 6112, 6160, 6470, 6608, 6784, 6800, 6992,
   7088, 7232, 7248, 42528, 43216, 43264, 43472, 43504, 43600, 44016, 65296,
   66720, 68912, 69734, 69872, 69942, 70096, 70384, 70736, 70864, 71248, 71360,
   71472, 71904, 72016, 72784, 73040, 73120, 92768, 92864, 93008, 120782,
   120792, 120802, 120812, 120822, 123200, 123632, 125264, 130032]

/-- The decimal value of a Unicode decimal-digit (Nd) character, `none` for
any other character. -/
def decDigitVal (c : Char) : Option Nat :=
  (ndRangeStarts.find? (fun s => decide (s ≤ c.toNat) && decide (c.toNat ≤ s + 9))).map
    (fun s => c.toNat - s)

/-- The digit half of CPython's `PyUnicode_TransformDecimalAndSpaceToASCII`:
before the `decimal` grammar is parsed, every Unicode decimal-digit
character is mapped to its ASCII counterpart (so `Decimal("١٥٠")` is 150).
The whitespace half of the transform is irrelevant here because the caller
has already stripped the text. -/
def toAsciiDigit (c : Char) : Char :=
  match decDigitVal c with
  | some d => Char.ofNat (48 + d)
  | none => c

/-- `decimal.Decimal(value)` for a string already stripped of surrounding
whitespace by the caller: map Unicode decimal digits to ASCII (the CPython
transform above), remove underscores, then parse
`[sign] (digits [. digits] | . digits) [(e|E) [sign] digits]` or the
case-insensitive Infinity/NaN literals.  Invalid strings raise
`InvalidOperation` in the source (`none` here). -/
def pyDecimalOfString (s : String) : Option PyDec :=
  let cs := (s.toList.map toAsciiDigit).filter (fun c => c != '_')
  let p : Bool × List Char :=
    match cs with
    | '+' :: r => (false, r)
    | '-' :: r => (true, r)
    | r => (false, r)
  let ls := lowerList p.2
  if isInfLit ls then some (.infinite p.1)
  else if isNanLit ls then some .nan
  else parseFinite p.1 p.2

/-- Outcome of `finance.amount_handler` (which reply the user sees). -/
inductive AmountOutcome
  | pleaseStart
  | cancelled
  | invalidFormat
  | tooSmall
  | tooLarge
  | accepted (q : Rat)
deriving DecidableEq, Repr

/-- The two cancel button texts checked by the flow handlers. -/
def cancelTexts : List String := ["❌ إلغاء", "❌ Cancel"]

def MIN_AMOUNT : Rat := 1
def MAX_AMOUNT : Rat := 1000000

/-- `amount_text.replace(",", ".")`. -/
def replaceCommas (s : String) : String :=
  String.mk (s.toList.map (fun c => if c == ',' then '.' else c))

/-- `finance.amount_handler` on a message whose text (`amountText`, already
`.strip()`-ed) arrives in the waiting-for-amount state.  Order follows the
source: user lookup, cancel check, `Decimal(text.replace(",", "."))` inside
a `try` that also raises `ValueError` on `amount <= 0` (a NaN comparison
raises `InvalidOperation` inside the same `try`, and `-Infinity <= 0`
raises `ValueError`, so both reject as invalid format; `+Infinity` passes
the sign and min checks and fails the max check), then the min/max bound
checks, then `update_data(amount, currency)` and the step advance. -/
def amount_handler (db : DB) (tid : Int) (amountText : String) (ctx : Ctx) :
    AmountOutcome × Ctx :=
  match findUser db tid with
  | none => (.pleaseStart, ctx)
  | some u =>
    if cancelTexts.contains amountText then (.cancelled, clearCtx)
    else
      match pyDecimalOfString (replaceCommas amountText) with
      | none => (.invalidFormat, ctx)
      | some .nan => (.invalidFormat, ctx)
      | some (.infinite true) => (.invalidFormat, ctx)
      | some (.infinite false) => (.tooLarge, ctx)
      | some (.fin q) =>
        if q ≤ 0 then (.invalidFormat, ctx)
        else if q < MIN_AMOUNT then (.tooSmall, ctx)
        else if q > MAX_AMOUNT then (.tooLarge, ctx)
        else
          let d := { ctx.data with amount := some q, currency := some u.currency }
          if ctx.data.requestType.getD "deposit" == "deposit" then
            (.accepted q, { st := some .depositWaitingReference, data := d })
          else
            (.accepted q, { st := some .withdrawWaitingAddress, data := d })

/-! ## Claim C2 -/

/-- C2: for every actor in the static super-admin allowlist,
`get_user_permissions` returns the full permission enumeration, whatever
User/Role/AdminRole rows the store holds. -/
theorem super_admin_has_all_permissions (admins : List Int) (db : DB) (tid : Int)
    (h : is_super_admin admins tid = true) :
    get_user_permissions admins db tid = ALL_PERMISSIONS := by
  unfold get_user_permissions
  rw [h]
  simp

/-- Witness for C2: a super-admin (id 7) over a store whose role rows would
grant nothing gets the full enumeration. -/
theorem super_admin_has_all_permissions_witness :
    is_super_admin [7] 7 = true ∧
    get_user_permissions [7] ⟨[], [], [], [], [], [], [], []⟩ 7 = ALL_PERMISSIONS :=
  ⟨by decide, super_admin_has_all_permissions [7] ⟨[], [], [], [], [], [], [], []⟩ 7 (by decide)⟩

/-! ## Claim C9 -/

/-- C9: an unregistered (guest) user who tries to start a deposit,
withdrawal, or complaint flow gets the registration offer, the conversation
context is untouched (no state set, no data written) and the store is
untouched (nothing persisted). -/
theorem guest_start_offers_registration_only (db : DB) (tid : Int) (ctx : Ctx)
    (h : is_guest_mode db tid = true) :
    deposit_handler db tid ctx = (.guestOffer, ctx, db) ∧
    withdraw_handler db tid ctx = (.guestOffer, ctx, db) ∧
    complaint_start_handler db tid ctx = (.guestOffer, ctx, db) := by
  unfold deposit_handler withdraw_handler complaint_start_handler
  rw [h]
  exact ⟨rfl, rfl, rfl⟩

/-- Witness for C9: a user with no row at all (id 5) is a guest and every
flow entry leaves context and store unchanged. -/
theorem guest_start_offers_registration_only_witness :
    is_guest_mode ⟨[], [], [], [], [], [], [], []⟩ 5 = true ∧
    deposit_handler ⟨[], [], [], [], [], [], [], []⟩ 5 clearCtx =
      (.guestOffer, clearCtx, ⟨[], [], [], [], [], [], [], []⟩) :=
  ⟨by decide,
   (guest_start_offers_registration_only ⟨[], [], [], [], [], [], [], []⟩ 5 clearCtx
      (by decide)).1⟩

/-! ## Claim C8 -/

/-- A store for the C8 counterexample: the draft selected company 1, while
payment method 7 is inactive and belongs to company 2. -/
def dbC8 : DB :=
  { users := [{ id := 1, telegramId := 10, language := "en", currency := "SAR",
                isRegistered := true, isAdmin := false, isTemporaryAdmin := false }],
    roles := [], adminRoles := [],
    companies := [{ id := 1, nameAr := "a", nameEn := "A", isActive := true },
                  { id := 2, nameAr := "b", nameEn := "B", isActive := true }],
    paymentMethods := [{ id := 7, companyId := 2, nameAr := "m", nameEn := "M",
                         isActive := false }],
    requests := [], complaints := [], auditLogs := [] }

def dataC8 : StateData :=
  { emptyData with requestType := some "deposit", companyId := some 1, companyName := some "A" }

def ctxC8 : Ctx :=
  { st := some .depositWaitingPaymentMethod, data := dataC8 }

/-- Counterexample to C8: payment method 7 is inactive and belongs to
company 2, not the draft's company 1, yet the handler accepts it and records
it in the draft.  The claim says such an id is rejected and never recorded. -/
theorem payment_method_accepts_inactive_foreign_method :
    (dbC8.paymentMethods.find? (fun m => m.id == 7)).map (fun m => (m.isActive, m.companyId))
      = some (false, 2) ∧
    ctxC8.data.companyId = some 1 ∧
    (payment_method_selection_handler dbC8 10 7 ctxC8).1 = .accepted ∧
    (payment_method_selection_handler dbC8 10 7 ctxC8).2.data.paymentMethodId = some 7 := by
  refine ⟨by decide, by decide, by decide, by decide⟩

/-- C8 amended: the handler checks existence only.  For a resolved caller,
an id with no PaymentMethod row is rejected with the context unchanged, and
any id with a row - active or not, any owning company - is accepted and
recorded in the draft. -/
theorem payment_method_selection_checks_existence_only (db : DB) (tid : Int) (pmId : Int)
    (ctx : Ctx) (u : UserRow) (hu : findUser db tid = some u) :
    (db.paymentMethods.find? (fun m => m.id == pmId) = none →
      payment_method_selection_handler db tid pmId ctx = (.errorNotFound, ctx)) ∧
    (∀ m, db.paymentMethods.find? (fun m => m.id == pmId) = some m →
      (payment_method_selection_handler db tid pmId ctx).1 = .accepted ∧
      (payment_method_selection_handler db tid pmId ctx).2.data.paymentMethodId = some pmId) := by
  constructor
  · intro hnone
    unfold payment_method_selection_handler
    rw [hu, hnone]
  · intro m hm
    unfold payment_method_selection_handler
    rw [hu, hm]
    by_cases hdep : ctx.data.requestType.getD "deposit" == "deposit" <;> simp [hdep]

/-- Witness for C8 amended: in the counterexample store, an unknown id (99)
is rejected with the context unchanged, and id 7 is accepted and recorded. -/
theorem payment_method_selection_checks_existence_only_witness :
    payment_method_selection_handler dbC8 10 99 ctxC8 = (.errorNotFound, ctxC8) ∧
    ((payment_method_selection_handler dbC8 10 7 ctxC8).1 = .accepted ∧
     (payment_method_selection_handler dbC8 10 7 ctxC8).2.data.paymentMethodId = some 7) :=
  ⟨(payment_method_selection_checks_existence_only dbC8 10 99 ctxC8
      ⟨1, 10, "en", "SAR", true, false, false⟩ (by decide)).1 (by decide),
   (payment_method_selection_checks_existence_only dbC8 10 7 ctxC8
      ⟨1, 10, "en", "SAR", true, false, false⟩ (by decide)).2
      ⟨7, 2, "m", "M", false⟩ (by decide)⟩

/-! ## Claims C5 and C10 -/

/-- A rejection reply of the amount step (`invalid_amount_format`,
`amount_too_small`, or `amount_too_large`: re-prompt, same state). -/
def isAmountRejection : AmountOutcome → Bool
  | .invalidFormat => true
  | .tooSmall => true
  | .tooLarge => true
  | _ => false

/-- C5: in the amount step (caller resolved to a user row), every input
whose comma-normalized text parses as a finite positive decimal within
[1.00, 1000000.00] is accepted — the amount is recorded in the draft and the
state advances to the reference (deposit) or address (withdraw) step — and
every non-cancel input that is non-numeric (no finite parse) or out of
bounds is rejected with the context (state and draft) unchanged. -/
theorem amount_step_accepts_in_bounds_rejects_rest (db : DB) (tid : Int) (s : String)
    (ctx : Ctx) (u : UserRow) (hu : findUser db tid = some u) :
    (∀ q : Rat, pyDecimalOfString (replaceCommas s) = some (.fin q) →
      MIN_AMOUNT ≤ q → q ≤ MAX_AMOUNT →
      (amount_handler db tid s ctx).1 = .accepted q ∧
      (amount_handler db tid s ctx).2.data.amount = some q ∧
      ((amount_handler db tid s ctx).2.st = some .depositWaitingReference ∨
       (amount_handler db tid s ctx).2.st = some .withdrawWaitingAddress)) ∧
    (cancelTexts.contains s = false →
     (∀ q : Rat, pyDecimalOfString (replaceCommas s) = some (.fin q) →
        q < MIN_AMOUNT ∨ MAX_AMOUNT < q) →
     isAmountRejection (amount_handler db tid s ctx).1 = true ∧
     (amount_handler db tid s ctx).2 = ctx) := by
  constructor
  · intro q hq h1 h2
    have hnc : cancelTexts.contains s = false := by
      cases hcon : cancelTexts.contains s with
      | false => rfl
      | true =>
        exfalso
        have hmem : s ∈ cancelTexts := by
          simpa using hcon
        simp only [cancelTexts, List.mem_cons] at hmem
        rcases hmem with h | h | h
        · rw [h, show pyDecimalOfString (replaceCommas "❌ إلغاء") = none from by decide] at hq
          exact Option.noConfusion hq
        · rw [h, show pyDecimalOfString (replaceCommas "❌ Cancel") = none from by decide] at hq
          exact Option.noConfusion hq
        · exact absurd h (List.not_mem_nil s)
    have hq0 : ¬ q ≤ 0 := by
      intro h
      have : (1 : Rat) ≤ 0 := le_trans h1 h
      norm_num [MIN_AMOUNT] at this
    have hqmin : ¬ q < MIN_AMOUNT := not_lt.mpr h1
    have hqmax : ¬ q > MAX_AMOUNT := not_lt.mpr h2
    unfold amount_handler
    rw [hu]
    simp only [hnc, Bool.false_eq_true, if_false, hq, hq0, if_false, hqmin, hqmax]
    by_cases hdep : ctx.data.requestType.getD "deposit" == "deposit" <;> simp [hdep]
  · intro hnc hout
    unfold amount_handler
    rw [hu]
    simp only [hnc, Bool.false_eq_true, if_false]
    cases hp : pyDecimalOfString (replaceCommas s) with
    | none => exact ⟨rfl, rfl⟩
    | some d =>
      cases d with
      | nan => exact ⟨rfl, rfl⟩
      | infinite b => cases b <;> exact ⟨rfl, rfl⟩
      | fin q =>
        rcases hout q hp with h | h
        · by_cases hq0 : q ≤ 0
          · simp [hq0, isAmountRejection]
          · simp [hq0, h, isAmountRejection]
        · have hq0 : ¬ q ≤ 0 := by
            intro hle
            have : MAX_AMOUNT < 0 := lt_of_lt_of_le h hle
            norm_num [MAX_AMOUNT] at this
          have hmin : ¬ q < MIN_AMOUNT := by
            intro hlt
            have : MAX_AMOUNT < MIN_AMOUNT := lt_trans h hlt
            norm_num [MAX_AMOUNT, MIN_AMOUNT] at this
          simp [hq0, hmin, h, isAmountRejection]

/-- Store and draft context for the amount-step witnesses: registered user
(telegram id 10), deposit draft with company and method already chosen. -/
def dbAmt : DB :=
  { users := [{ id := 1, telegramId := 10, language := "en", currency := "SAR",
                isRegistered := true, isAdmin := false, isTemporaryAdmin := false }],
    roles := [], adminRoles := [],
    companies := [{ id := 1, nameAr := "a", nameEn := "A", isActive := true }],
    paymentMethods := [{ id := 1, companyId := 1, nameAr := "m", nameEn := "M",
                         isActive := true }],
    requests := [], complaints := [], auditLogs := [] }

def dataAmt : StateData :=
  { requestType := some "deposit", companyId := some 1, companyName := some "A",
    paymentMethodId := some 1, paymentMethodName := some "M", amount := none,
    currency := none, reference := none, userWithdrawTo := none }

def ctxAmt : Ctx := { st := some .depositWaitingAmount, data := dataAmt }

/-- Witness for C5: "150.00" is accepted with amount 150 and the flow
advances; "abc" is rejected with the context unchanged. -/
theorem amount_step_accepts_in_bounds_rejects_rest_witness :
    ((amount_handler dbAmt 10 "150.00" ctxAmt).1 = .accepted 150 ∧
     (amount_handler dbAmt 10 "150.00" ctxAmt).2.data.amount = some 150 ∧
     ((amount_handler dbAmt 10 "150.00" ctxAmt).2.st = some .depositWaitingReference ∨
      (amount_handler dbAmt 10 "150.00" ctxAmt).2.st = some .withdrawWaitingAddress)) ∧
    (isAmountRejection (amount_handler dbAmt 10 "abc" ctxAmt).1 = true ∧
     (amount_handler dbAmt 10 "abc" ctxAmt).2 = ctxAmt) := by
  constructor
  · exact (amount_step_accepts_in_bounds_rejects_rest dbAmt 10 "150.00" ctxAmt
      ⟨1, 10, "en", "SAR", true, false, false⟩ (by decide)).1 150 (by decide)
      (by norm_num [MIN_AMOUNT]) (by norm_num [MAX_AMOUNT])
  · exact (amount_step_accepts_in_bounds_rejects_rest dbAmt 10 "abc" ctxAmt
      ⟨1, 10, "en", "SAR", true, false, false⟩ (by decide)).2 (by decide)
      (fun q hq => by
        rw [show pyDecimalOfString (replaceCommas "abc") = none from by decide] at hq
        exact absurd hq (by simp))

/-- C10: the amount step normalizes commas to periods before decimal
parsing: `replaceCommas` maps "150,00" to "150.00", that string parses as
the decimal 150, and the handler accepts the input "150,00" in a deposit
draft, storing amount 150 and advancing to the reference step. -/
theorem amount_step_normalizes_commas :
    replaceCommas "150,00" = "150.00" ∧
    pyDecimalOfString "150.00" = some (.fin 150) ∧
    (amount_handler dbAmt 10 "150,00" ctxAmt).1 = .accepted 150 ∧
    (amount_handler dbAmt 10 "150,00" ctxAmt).2.data.amount = some 150 ∧
    (amount_handler dbAmt 10 "150,00" ctxAmt).2.st = some .depositWaitingReference := by
  refine ⟨by decide, by decide, by decide, by decide, by decide⟩

/-! ## Request confirmation (src/handlers/finance.py lines 434-506) -/

/-- Outcome of `confirm_request_handler`. -/
inductive ConfirmOutcome
  | errorNoUser
  | errorFailed     -- exception raised before the insert (missing draft field)
  | created (reqId : Int)
deriving DecidableEq, Repr

/-- `RequestType.value`. -/
def reqTypeStr : ReqType → String
  | .deposit => "deposit"
  | .withdraw => "withdraw"

/-- `finance.confirm_request_handler` (the `confirm_yes` callback).
`freshToken` models the `str(uuid.uuid4())` executed on THIS invocation:
the handler mints a new token every time it runs, and neither the FSM data
nor any other state carries a token over from a previous tap - there is no
reuse path in the source.  The Request insert is committed first; the audit
row is a separate `create_audit_log` transaction whose own commit success is
`auditOk` (its failure is swallowed there).  A missing draft field makes
`int(None)`/`Decimal(None)` raise inside the outer `try` before any insert:
generic error, nothing persisted, context kept.  The new row id models the
autoincrement primary key. -/
def confirm_request_handler (auditOk : Bool) (freshToken : String) (db : DB) (tid : Int)
    (ctx : Ctx) : ConfirmOutcome × Ctx × DB :=
  match findUser db tid with
  | none => (.errorNoUser, ctx, db)
  | some u =>
    match ctx.data.companyId, ctx.data.paymentMethodId, ctx.data.amount with
    | some cid, some pmid, some amt =>
      let rtype : ReqType := if ctx.data.requestType == some "deposit" then .deposit else .withdraw
      let reqId : Int := (db.requests.length : Int) + 1
      let newReq : RequestRow :=
        { id := reqId, userId := u.id, companyId := cid, paymentMethodId := pmid,
          requestType := rtype, amount := amt, currency := ctx.data.currency.getD u.currency,
          reference := ctx.data.reference, userWithdrawTo := ctx.data.userWithdrawTo,
          status := .pending, adminNotes := none, approvedBy := none,
          clientToken := some freshToken }
      let db1 := { db with requests := db.requests ++ [newReq] }
      let db2 := create_audit_log auditOk db1 tid "create_request" "request" (some reqId)
        none (some [("type", reqTypeStr rtype), ("amount", toString amt),
                    ("currency", newReq.currency), ("status", "pending")])
      (.created reqId, clearCtx, db2)
    | _, _, _ => (.errorFailed, ctx, db)

/-- A completed deposit draft awaiting confirmation, over the `dbAmt` store. -/
def dataConf : StateData :=
  { dataAmt with amount := some 150, currency := some "SAR", reference := some "ref-1" }

def ctxConf : Ctx := { st := some .depositWaitingConfirmation, data := dataConf }

/-! ## Claim C1 -/

/-- C1 evaluated at the failing input: two `confirm_yes` deliveries for the
same completed draft (the second arriving before the first clears the
context, the duplicate-submit race the client token is supposed to guard)
each mint a fresh token and each persist a Request: the store ends with two
Request rows carrying two distinct tokens.  The token is regenerated per
confirm tap, not minted once on entering AwaitingConfirmation, so a
double-tapped draft yields two records, not one. -/
theorem confirm_mints_token_per_tap_duplicating_requests :
    (confirm_request_handler true "tok-a" dbAmt 10 ctxConf).1 = .created 1 ∧
    (confirm_request_handler true "tok-b"
      (confirm_request_handler true "tok-a" dbAmt 10 ctxConf).2.2 10 ctxConf).1 = .created 2 ∧
    ((confirm_request_handler true "tok-b"
      (confirm_request_handler true "tok-a" dbAmt 10 ctxConf).2.2 10 ctxConf).2.2.requests.map
        (fun r => r.clientToken)) = [some "tok-a", some "tok-b"] := by
  refine ⟨by decide, by decide, by decide⟩

/-! ## Claim C3 -/

/-- Counterexample to C3: with the separate audit commit failing, the
confirm step still reports success, the Request row stays committed, and no
AuditLog row exists - the business mutation is not rolled back when the
audit write fails, because the Request was committed in an earlier, separate
transaction and `create_audit_log` swallows its own failure. -/
theorem request_commit_survives_audit_failure :
    (confirm_request_handler false "tok-a" dbAmt 10 ctxConf).1 = .created 1 ∧
    (confirm_request_handler false "tok-a" dbAmt 10 ctxConf).2.2.requests.length = 1 ∧
    (confirm_request_handler false "tok-a" dbAmt 10 ctxConf).2.2.auditLogs = [] := by
  refine ⟨by decide, by decide, by decide⟩

/-- The record update behind a Request commit leaves `users` untouched, so
user lookups are stable across it. -/
theorem findUser_after_requests_update (db : DB) (rs : List RequestRow) (tid : Int) :
    findUser { db with requests := rs } tid = findUser db tid := rfl

/-- `create_audit_log` with a failing commit never changes the store. -/
theorem create_audit_log_failed_commit (db : DB) (actorTid : Int) (action entity : String)
    (entityId : Option Int) (b a : Option (List (String × String))) :
    create_audit_log false db actorTid action entity entityId b a = db := by
  unfold create_audit_log
  cases findUser db actorTid <;> simp

/-- C3 amended: the audit row is written in a separate transaction after the
Request insert has committed; when that audit commit fails, the error is
swallowed, the handler still reports success, the store gains the Request
row, and the audit table is unchanged - a committed mutation without its
audit row. -/
theorem confirm_audit_is_separate_transaction (tok : String) (db : DB) (tid : Int) (ctx : Ctx)
    (u : UserRow) (cid pmid : Int) (amt : Rat)
    (hu : findUser db tid = some u)
    (hc : ctx.data.companyId = some cid)
    (hp : ctx.data.paymentMethodId = some pmid)
    (ha : ctx.data.amount = some amt) :
    (confirm_request_handler false tok db tid ctx).1 = .created ((db.requests.length : Int) + 1) ∧
    (confirm_request_handler false tok db tid ctx).2.2.requests.length = db.requests.length + 1 ∧
    (confirm_request_handler false tok db tid ctx).2.2.auditLogs = db.auditLogs := by
  unfold confirm_request_handler
  rw [hu, hc, hp, ha]
  simp [create_audit_log_failed_commit]

/-- Witness for C3 amended: the concrete confirmed draft with a failing
audit commit gains the Request row and no audit row. -/
theorem confirm_audit_is_separate_transaction_witness :
    ((confirm_request_handler false "tok-w" dbAmt 10 ctxConf).1 = .created 1 ∧
     (confirm_request_handler false "tok-w" dbAmt 10 ctxConf).2.2.requests.length = 1 ∧
     (confirm_request_handler false "tok-w" dbAmt 10 ctxConf).2.2.auditLogs = []) := by
  have h := confirm_audit_is_separate_transaction "tok-w" dbAmt 10 ctxConf
    ⟨1, 10, "en", "SAR", true, false, false⟩ 1 1 150 (by decide) (by decide) (by decide)
      (by decide)
  simpa [dbAmt] using h

/-! ## Admin grant/revoke (src/handlers/admin.py lines 483-584) -/

/-- Outcome of `process_user_id_handler` (which reply path is taken; for the
add/remove branches the flag mutation has committed by then).  At runtime
the subsequent `log_admin_action` constructs an `AuditLog` with keyword
fields (`performed_by`, `target_user_id`, `details`) that do not exist on
the `models.AuditLog` schema, raising `TypeError` inside the outer `try`
after the flag commit; no audit row is ever inserted on these paths, so the
embedding appends none. -/
inductive AdminOpOutcome
  | userNotFound
  | userNotRegistered
  | alreadyAdmin
  | cannotRemoveSuperAdmin
  | userNotAdmin
  | adminAdded
  | adminRemoved
  | noAction
deriving DecidableEq, Repr

/-- Commit a field update on the user row with the given telegram id. -/
def updateUserRow (db : DB) (tid : Int) (f : UserRow → UserRow) : DB :=
  { db with users := db.users.map (fun u => if u.telegramId == tid then f u else u) }

/-- `admin.process_user_id_handler` with the target id already parsed
(`int()` failure replies a generic error and changes nothing).  Source
order: resolve target row, reject unregistered targets, then dispatch on
the stored action; the remove branch rejects allowlisted super-admins
before touching anything. -/
def process_user_id_handler (admins : List Int) (db : DB) (action : String) (targetTid : Int) :
    AdminOpOutcome × DB :=
  match findUser db targetTid with
  | none => (.userNotFound, db)
  | some target =>
    if !target.isRegistered then (.userNotRegistered, db)
    else if action == "add_permanent" then
      if target.isAdmin || admins.contains targetTid then (.alreadyAdmin, db)
      else (.adminAdded,
            updateUserRow db targetTid (fun u => { u with isAdmin := true, isTemporaryAdmin := false }))
    else if action == "add_temporary" then
      if target.isAdmin || admins.contains targetTid then (.alreadyAdmin, db)
      else (.adminAdded,
            updateUserRow db targetTid (fun u => { u with isAdmin := true, isTemporaryAdmin := true }))
    else if action == "remove_admin" then
      if admins.contains targetTid then (.cannotRemoveSuperAdmin, db)
      else if !target.isAdmin then (.userNotAdmin, db)
      else (.adminRemoved,
            updateUserRow db targetTid (fun u => { u with isAdmin := false, isTemporaryAdmin := false }))
    else (.noAction, db)

/-! ## Claim C7 -/

/-- An allowlisted super-admin (telegram id 100) whose auto-created user row
never registered. -/
def dbC7 : DB :=
  { users := [{ id := 1, telegramId := 100, language := "ar", currency := "SAR",
                isRegistered := false, isAdmin := false, isTemporaryAdmin := false }],
    roles := [], adminRoles := [], companies := [], paymentMethods := [],
    requests := [], complaints := [], auditLogs := [] }

/-- Counterexample to C7: removing the allowlisted-but-unregistered target
100 fails with the not-registered reply, not the cannot-remove-super-admin
(PolicyViolation) reply the claim promises for every allowlisted target;
the store is unchanged. -/
theorem remove_unregistered_super_admin_not_policy_violation :
    is_super_admin [100] 100 = true ∧
    (process_user_id_handler [100] dbC7 "remove_admin" 100).1 = .userNotRegistered ∧
    (process_user_id_handler [100] dbC7 "remove_admin" 100).1 ≠ .cannotRemoveSuperAdmin ∧
    (process_user_id_handler [100] dbC7 "remove_admin" 100).2 = dbC7 := by
  refine ⟨by decide, by decide, by decide, by decide⟩

/-- C7 amended: admin removal of an allowlisted target never mutates the
store, and when the target resolves to a registered user row the failure is
the cannot-remove-super-admin (PolicyViolation) reply; a missing or
unregistered target row fails earlier with NotFound/NotRegistered. -/
theorem remove_super_admin_rejected_no_mutation (admins : List Int) (db : DB) (targetTid : Int)
    (hsup : admins.contains targetTid = true) :
    (process_user_id_handler admins db "remove_admin" targetTid).2 = db ∧
    (∀ u, findUser db targetTid = some u → u.isRegistered = true →
      (process_user_id_handler admins db "remove_admin" targetTid).1 = .cannotRemoveSuperAdmin) := by
  have hsup' : targetTid ∈ admins := by simpa using hsup
  unfold process_user_id_handler
  cases hf : findUser db targetTid with
  | none =>
    refine ⟨rfl, ?_⟩
    intro u hu
    exact absurd hu (by simp)
  | some target =>
    cases hreg : target.isRegistered with
    | false =>
      refine ⟨by simp [hreg], ?_⟩
      intro u hu hru
      injection hu with h
      rw [← h, hreg] at hru
      exact Bool.noConfusion hru
    | true =>
      constructor
      · simp [hreg, hsup']
      · intro u hu hru
        simp [hreg, hsup']

/-- A registered allowlisted super-admin row for the C7 amended witness. -/
def dbC7reg : DB :=
  { users := [{ id := 1, telegramId := 100, language := "ar", currency := "SAR",
                isRegistered := true, isAdmin := false, isTemporaryAdmin := false }],
    roles := [], adminRoles := [], companies := [], paymentMethods := [],
    requests := [], complaints := [], auditLogs := [] }

/-- Witness for C7 amended: removing the registered super-admin 100 leaves
the store unchanged and replies cannot-remove-super-admin. -/
theorem remove_super_admin_rejected_no_mutation_witness :
    (process_user_id_handler [100] dbC7reg "remove_admin" 100).2 = dbC7reg ∧
    (process_user_id_handler [100] dbC7reg "remove_admin" 100).1 = .cannotRemoveSuperAdmin := by
  have h := remove_super_admin_rejected_no_mutation [100] dbC7reg 100 (by decide)
  exact ⟨h.1, h.2 ⟨1, 100, "ar", "SAR", true, false, false⟩ (by decide) rfl⟩

/-! ## Claim C6 -/

/-- One step of the `addPerms` fold. -/
theorem addPerms_cons (acc : List String) (q : String) (qs : List String) :
    addPerms acc (q :: qs) = addPerms (if acc.contains q then acc else acc ++ [q]) qs := rfl

/-- Membership in the accumulator survives `addPerms`. -/
theorem mem_addPerms_of_mem_acc (ps : List String) (acc : List String) (p : String)
    (h : p ∈ acc) : p ∈ addPerms acc ps := by
  induction ps generalizing acc with
  | nil => exact h
  | cons q qs ih =>
    rw [addPerms_cons]
    by_cases hq : acc.contains q = true
    · rw [if_pos hq]
      exact ih acc h
    · rw [if_neg hq]
      exact ih (acc ++ [q]) (List.mem_append_left _ h)

/-- Every element of the added list ends up in `addPerms`. -/
theorem mem_addPerms_of_mem (ps : List String) (acc : List String) (p : String)
    (h : p ∈ ps) : p ∈ addPerms acc ps := by
  induction ps generalizing acc with
  | nil => exact absurd h (List.not_mem_nil p)
  | cons q qs ih =>
    rw [addPerms_cons]
    rcases List.mem_cons.mp h with hq | hq
    · subst hq
      by_cases hc : acc.contains p = true
      · rw [if_pos hc]
        exact mem_addPerms_of_mem_acc qs acc p (by simpa using hc)
      · rw [if_neg hc]
        exact mem_addPerms_of_mem_acc qs (acc ++ [p]) p (List.mem_append_right _ (by simp))
    · by_cases hc : acc.contains q = true
      · rw [if_pos hc]
        exact ih acc hq
      · rw [if_neg hc]
        exact ih (acc ++ [q]) hq

/-- Membership in the accumulator survives the role fold. -/
theorem mem_roleFold_of_mem_acc (roles : List RoleRow) (acc : List String) (p : String)
    (h : p ∈ acc) :
    p ∈ roles.foldl (fun a r => addPerms a r.permissions) acc := by
  induction roles generalizing acc with
  | nil => exact h
  | cons r rs ih =>
    simp only [List.foldl_cons]
    exact ih (addPerms acc r.permissions) (mem_addPerms_of_mem_acc r.permissions acc p h)

/-- A permission carried by any role in the list ends up in the fold. -/
theorem mem_roleFold_of_mem_role (roles : List RoleRow) (acc : List String) (p : String)
    (r : RoleRow) (hr : r ∈ roles) (hp : p ∈ r.permissions) :
    p ∈ roles.foldl (fun a r => addPerms a r.permissions) acc := by
  induction roles generalizing acc with
  | nil => exact absurd hr (List.not_mem_nil r)
  | cons q qs ih =>
    simp only [List.foldl_cons]
    rcases List.mem_cons.mp hr with hq | hq
    · subst hq
      exact mem_roleFold_of_mem_acc qs (addPerms acc r.permissions) p
        (mem_addPerms_of_mem r.permissions acc p hp)
    · exact ih (addPerms acc q.permissions) hq

/-- A database admin (telegram id 100, not in the allowlist [999]) holding
the seeded "Super Admin" role via one AdminRole row. -/
def dbC6 : DB :=
  ensure_default_roles
    { users := [{ id := 1, telegramId := 100, language := "en", currency := "SAR",
                  isRegistered := true, isAdmin := true, isTemporaryAdmin := false }],
      roles := [], adminRoles := [{ userId := 1, roleId := 1 }], companies := [],
      paymentMethods := [], requests := [], complaints := [], auditLogs := [] }

/-- Counterexample to C6: the startup seeding itself stores ManageAdmins in
the "Super Admin" Role's permission list (no rejection anywhere in the role
mechanism), and `get_user_permissions` returns role permissions unfiltered,
so the non-allowlisted database admin 100 assigned that role holds
ManageAdmins. -/
theorem manage_admins_reachable_through_role_mechanism :
    is_super_admin [999] 100 = false ∧
    (dbC6.roles.head?).map (fun r => r.name) = some "Super Admin" ∧
    (dbC6.roles.head?).map (fun r => r.permissions.contains MANAGE_ADMINS) = some true ∧
    (get_user_permissions [999] dbC6 100).contains MANAGE_ADMINS = true := by
  refine ⟨by decide, by decide, by decide, by decide⟩

/-- C6 amended: nothing filters or rejects ManageAdmins in the role
mechanism - for any non-allowlisted database admin, a ManageAdmins entry in
any of their roles' permission lists flows straight into
`get_user_permissions` (and the default seeding creates such a role). -/
theorem role_manage_admins_flows_to_permissions (admins : List Int) (db : DB) (tid : Int)
    (u : UserRow) (r : RoleRow)
    (hsup : is_super_admin admins tid = false)
    (hu : findUser db tid = some u)
    (hadm : u.isAdmin = true)
    (hr : r ∈ rolesOfUser db u.id)
    (hp : MANAGE_ADMINS ∈ r.permissions) :
    MANAGE_ADMINS ∈ get_user_permissions admins db tid := by
  unfold get_user_permissions
  rw [hsup, hu]
  simp only [Bool.false_eq_true, if_false, hadm, Bool.not_true]
  exact mem_roleFold_of_mem_role (rolesOfUser db u.id) [] MANAGE_ADMINS r hr hp

/-- Witness for C6 amended: applied to the seeded store, admin 100 holds
ManageAdmins. -/
theorem role_manage_admins_flows_to_permissions_witness :
    MANAGE_ADMINS ∈ get_user_permissions [999] dbC6 100 :=
  role_manage_admins_flows_to_permissions [999] dbC6 100
    ⟨1, 100, "en", "SAR", true, true, false⟩
    ⟨1, "Super Admin", ALL_PERMISSIONS⟩
    (by decide) (by decide) rfl (by decide) (by decide)

/-! ## Claim C4 -/

/-- `RequestStatus.value`. -/
def reqStatusStr : ReqStatus → String
  | .pending => "pending"
  | .approved => "approved"
  | .rejected => "rejected"

/-- The error taxonomy of the admin review decide operation. -/
inductive DecideError
  | notFound
  | permissionDenied
  | invalidTransition
deriving DecidableEq, Repr

/-- Result of a decide call. -/
inductive DecideResult
  | failed (e : DecideError)
  | decided (reqId : Int)
deriving DecidableEq, Repr

/-- Modelled from the spec: §4.4 `decide(actor, request_id, outcome, notes)`
has no implementation under the source handlers (`handlers/admin.py` only
renders pending-request lists; no approve/reject callback exists in the
repository), so the operation is modelled from the spec's words: fail
`NotFound` when the id does not resolve, `PermissionDenied` when the actor
lacks ApproveTx, `InvalidTransition` when the target is not currently
pending; on success set status, approver and notes on the row and append the
AuditLog row with before-status pending and after-status the outcome, in the
same unit of work. -/
def decideRequest (admins : List Int) (db : DB) (actorTid : Int) (requestId : Int)
    (outcome : ReqStatus) (notes : Option String) : DecideResult × DB :=
  match db.requests.find? (fun r => r.id == requestId) with
  | none => (.failed .notFound, db)
  | some r =>
    if !(has_permission admins db actorTid APPROVE_TX) then (.failed .permissionDenied, db)
    else if r.status ≠ .pending then (.failed .invalidTransition, db)
    else
      let r' : RequestRow :=
        { r with status := outcome, approvedBy := some actorTid, adminNotes := notes }
      let reqs : List RequestRow :=
        db.requests.map (fun x => if x.id == requestId then r' else x)
      let actorId : Int := ((findUser db actorTid).map (fun u => u.id)).getD actorTid
      let row : AuditRow :=
        { actorUserId := actorId, action := "decide_request", entity := "request",
          entityId := some requestId, before := some [("status", "pending")],
          after := some [("status", reqStatusStr outcome), ("approver", toString actorTid)] }
      (.decided requestId, { db with requests := reqs, auditLogs := db.auditLogs ++ [row] })

/-- C4: deciding a Request whose status is already terminal fails and
changes nothing - the store (Request rows and AuditLog rows) is returned
unchanged - and for an actor holding ApproveTx the failure is precisely
InvalidTransition. -/
theorem decide_terminal_request_fails_without_mutation (admins : List Int) (db : DB)
    (actorTid requestId : Int) (outcome : ReqStatus) (notes : Option String) (r : RequestRow)
    (hr : db.requests.find? (fun x => x.id == requestId) = some r)
    (hterm : r.status ≠ .pending) :
    (decideRequest admins db actorTid requestId outcome notes).2 = db ∧
    (∃ e, (decideRequest admins db actorTid requestId outcome notes).1 = .failed e) ∧
    (has_permission admins db actorTid APPROVE_TX = true →
      (decideRequest admins db actorTid requestId outcome notes).1 =
        .failed .invalidTransition) := by
  unfold decideRequest
  rw [hr]
  cases hperm : has_permission admins db actorTid APPROVE_TX with
  | false =>
    refine ⟨by simp, ⟨.permissionDenied, by simp⟩, ?_⟩
    intro h
    exact absurd h (by simp [hperm])
  | true =>
    refine ⟨by simp [hterm], ⟨.invalidTransition, by simp [hterm]⟩, fun _ => by simp [hterm]⟩

/-- Store for the C4 witness: one approved request, super-admin actor 100. -/
def dbC4 : DB :=
  { users := [{ id := 1, telegramId := 100, language := "en", currency := "SAR",
                isRegistered := true, isAdmin := false, isTemporaryAdmin := false }],
    roles := [], adminRoles := [], companies := [], paymentMethods := [],
    requests := [{ id := 1, userId := 1, companyId := 1, paymentMethodId := 1,
                   requestType := .deposit, amount := 150, currency := "SAR",
                   reference := some "ref-1", userWithdrawTo := none, status := .approved,
                   adminNotes := none, approvedBy := some 1, clientToken := some "tok" }],
    complaints := [], auditLogs := [] }

/-- Witness for C4: re-deciding the approved request 1 by the authorized
actor 100 fails with InvalidTransition and leaves the store unchanged. -/
theorem decide_terminal_request_fails_without_mutation_witness :
    (decideRequest [100] dbC4 100 1 .rejected none).2 = dbC4 ∧
    (decideRequest [100] dbC4 100 1 .rejected none).1 = .failed .invalidTransition := by
  have h := decide_terminal_request_fails_without_mutation [100] dbC4 100 1 .rejected none
    { id := 1, userId := 1, companyId := 1, paymentMethodId := 1,
      requestType := .deposit, amount := 150, currency := "SAR",
      reference := some "ref-1", userWithdrawTo := none, status := .approved,
      adminNotes := none, approvedBy := some 1, clientToken := some "tok" }
    (by decide) (by decide)
  exact ⟨h.1, h.2.2 (by decide)⟩
